import Mathlib

set_option maxHeartbeats 1000000

/-!
Shallow embedding of the chrome-devtools-mcp adapter.

The repository is a thin MCP tool server over the Chrome DevTools protocol.
The logic verified here is translated from the source files:
  * the image post-processing size ladder (`processImage` / `saveImage`),
  * the network-event capture fold (`captureNetworkEvents` handlers),
  * the DOM attribute extraction of `queryDOMElements`,
  * the protocol-call traces of `clickElement` and `captureScreenshot`,
  * the `capture_network_events` tool schema validation for `duration`.

External collaborators (the sharp codec, the CDP transport, zod) are modelled
as oracles: each protocol call or encode attempt is a field of an environment
record giving that call its outcome (`Except String` mirrors await/throw).
-/

/-! ## Image post-processing (source: image-utils, `processImage` / `saveImage`) -/

/-- A byte buffer as produced by a codec `toBuffer()` call: we keep its byte
length (`buffer.length`) and its base64 rendering (`buffer.toString('base64')`),
the only two observations the source makes of it. -/
structure ImgBuffer where
  len : Nat
  b64 : String
  deriving DecidableEq, Repr

/-- Outcomes of the four encode attempts `processImage` can make on the sharp
pipeline for one input image: `.webp({quality: 80, effort: 6, lossless: false})`,
`.webp({quality: 60, effort: 6, lossless: false, nearLossless: true})`,
`.png({compressionLevel: 9, palette: true})`, and the rescaled
`.png({compressionLevel: 9, palette: true, colors})` attempt, which the source
parameterises by the reduced width, height and palette size.
An `error` models a rejected `toBuffer()` promise. -/
structure SharpCodec where
  webp80 : Except String ImgBuffer
  webp60 : Except String ImgBuffer
  pngFull : Except String ImgBuffer
  pngScaled : Nat → Nat → Nat → Except String ImgBuffer

/-- The `ProcessedImage` interface of the source: base64 payload with embedded
MIME prefix, nominal format tag (declared as the literal type `'png'`), byte
size. -/
structure ProcessedImage where
  data : String
  format : String
  size : Nat
  deriving DecidableEq, Repr

/-- The size ceiling `1024 * 1024` used throughout `processImage`. -/
def MAX_IMAGE_BYTES : Nat := 1024 * 1024

/-- Reduced width `Math.floor(900 * Math.sqrt(1024 * 1024 / pngBuffer.length))`
of the rescale rung, written with natural-number arithmetic; the theorem for C5
proves it equal to the floor of the exact real expression. -/
def scaledWidth (n : Nat) : Nat := Nat.sqrt (900 * 900 * 1048576 / n)

/-- Reduced height `Math.floor(600 * Math.sqrt(1024 * 1024 / pngBuffer.length))`
of the rescale rung. -/
def scaledHeight (n : Nat) : Nat := Nat.sqrt (600 * 600 * 1048576 / n)

/-- The inner try of `processImage`: attempt WebP at quality 80, return it when
within the ceiling, otherwise attempt WebP at quality 60 with near-lossless and
return that when within the ceiling.  A thrown WebP error or two oversized WebP
buffers fall through to the PNG fallback (`none`). -/
def webpStage (enc : SharpCodec) : Option ProcessedImage :=
  match enc.webp80 with
  | Except.error _ => none
  | Except.ok wb =>
    if wb.len ≤ MAX_IMAGE_BYTES then
      some { data := "data:image/webp;base64," ++ wb.b64, format := "png", size := wb.len }
    else
      match enc.webp60 with
      | Except.error _ => none
      | Except.ok cwb =>
        if cwb.len ≤ MAX_IMAGE_BYTES then
          some { data := "data:image/webp;base64," ++ cwb.b64, format := "png", size := cwb.len }
        else none

/-- `processImage` translated rung by rung from the source.

After the WebP stage falls through, the PNG fallback returns the full-size PNG
when within the ceiling, otherwise re-encodes at `scaledWidth` by
`scaledHeight` with a 128-colour palette, failing with the too-large error when
even that exceeds the ceiling.  The outer catch of the source wraps every
thrown message in `Failed to process image: `. -/
def processImage (enc : SharpCodec) : Except String ProcessedImage :=
  match webpStage enc with
  | some img => Except.ok img
  | none =>
    match enc.pngFull with
    | Except.error e => Except.error ("Failed to process image: " ++ e)
    | Except.ok pb =>
      if MAX_IMAGE_BYTES < pb.len then
        match enc.pngScaled (scaledWidth pb.len) (scaledHeight pb.len) 128 with
        | Except.error e => Except.error ("Failed to process image: " ++ e)
        | Except.ok cpb =>
          if MAX_IMAGE_BYTES < cpb.len then
            Except.error "Failed to process image: Image is too large even after compression"
          else
            Except.ok { data := "data:image/png;base64," ++ cpb.b64, format := "png", size := cpb.len }
      else
        Except.ok { data := "data:image/png;base64," ++ pb.b64, format := "png", size := pb.len }

/-- The fixed screenshots directory of the source. -/
def SCREENSHOT_DIR : String := "/tmp/chrome-tools-screenshots"

/-- What `saveImage` writes: the file path
`SCREENSHOT_DIR/screenshot_<Date.now()>.webp` and the base64 text that is
decoded into the file contents, `processedImage.data.split(',')[1]`. -/
structure SavedImage where
  filepath : String
  base64Data : Option String
  deriving DecidableEq, Repr

/-- `saveImage` translated from the source, with `Date.now()` passed in. -/
def saveImage (img : ProcessedImage) (now : Nat) : SavedImage :=
  { filepath := SCREENSHOT_DIR ++ "/screenshot_" ++ toString now ++ ".webp"
  , base64Data := (img.data.splitOn ",")[1]? }

/-! ## Helper lemmas for the image ladder -/

/-- The floor of the real square root of a nonnegative real is the natural
square root of its floor. -/
theorem natFloor_sqrt_eq (x : ℝ) (hx : 0 ≤ x) :
    ⌊Real.sqrt x⌋₊ = Nat.sqrt ⌊x⌋₊ := by
  rw [Nat.floor_eq_iff (Real.sqrt_nonneg x)]
  constructor
  · calc ((Nat.sqrt ⌊x⌋₊ : ℕ) : ℝ)
        ≤ Real.sqrt ((⌊x⌋₊ : ℕ) : ℝ) := Real.nat_sqrt_le_real_sqrt
      _ ≤ Real.sqrt x := Real.sqrt_le_sqrt (Nat.floor_le hx)
  · have h2 : ⌊x⌋₊ + 1 ≤ (Nat.sqrt ⌊x⌋₊ + 1) ^ 2 := Nat.lt_succ_sqrt' ⌊x⌋₊
    rw [Real.sqrt_lt' (by positivity)]
    calc x < (⌊x⌋₊ : ℝ) + 1 := Nat.lt_floor_add_one x
      _ ≤ ((Nat.sqrt ⌊x⌋₊ + 1 : ℕ) : ℝ) ^ 2 := by exact_mod_cast h2
      _ = ((Nat.sqrt ⌊x⌋₊ : ℝ) + 1) ^ 2 := by push_cast; ring

/-- The rescale rung dimension `Math.floor(c * Math.sqrt(1048576 / n))`,
written with natural-number arithmetic, agrees with the exact real
expression. -/
theorem scaled_dim_eq (c n : ℕ) :
    Nat.sqrt (c * c * 1048576 / n) = ⌊(c : ℝ) * Real.sqrt (1048576 / (n : ℝ))⌋₊ := by
  have h1 : (c : ℝ) * Real.sqrt (1048576 / (n : ℝ))
      = Real.sqrt ((c : ℝ) * (c : ℝ) * (1048576 / (n : ℝ))) := by
    rw [Real.sqrt_mul (by positivity : (0:ℝ) ≤ (c : ℝ) * (c : ℝ)),
      Real.sqrt_mul_self (by positivity : (0:ℝ) ≤ (c : ℝ))]
  have h2 : (c : ℝ) * (c : ℝ) * (1048576 / (n : ℝ))
      = ((c * c * 1048576 : ℕ) : ℝ) / (n : ℝ) := by push_cast; ring
  rw [h1, natFloor_sqrt_eq _ (by positivity), h2, Nat.floor_div_nat, Nat.floor_natCast]

/-- Any image the WebP stage returns is within the ceiling and tagged png. -/
theorem webpStage_size (enc : SharpCodec) (img : ProcessedImage)
    (h : webpStage enc = some img) : img.size ≤ MAX_IMAGE_BYTES ∧ img.format = "png" := by
  unfold webpStage at h
  cases h80 : enc.webp80 with
  | error e => simp [h80] at h
  | ok wb =>
    simp only [h80] at h
    by_cases h1 : wb.len ≤ MAX_IMAGE_BYTES
    · rw [if_pos h1] at h
      cases h; exact ⟨h1, rfl⟩
    · rw [if_neg h1] at h
      cases h60 : enc.webp60 with
      | error e => simp [h60] at h
      | ok cwb =>
        simp only [h60] at h
        by_cases h2 : cwb.len ≤ MAX_IMAGE_BYTES
        · rw [if_pos h2] at h; cases h; exact ⟨h2, rfl⟩
        · rw [if_neg h2] at h; exact absurd h (by simp)

/-- When both WebP rungs are oversized or failed, the WebP stage falls
through. -/
theorem webpStage_none (enc : SharpCodec)
    (h80 : ∀ b, enc.webp80 = Except.ok b → MAX_IMAGE_BYTES < b.len)
    (h60 : ∀ b, enc.webp60 = Except.ok b → MAX_IMAGE_BYTES < b.len) :
    webpStage enc = none := by
  unfold webpStage
  cases hw : enc.webp80 with
  | error e => rfl
  | ok wb =>
    simp only [if_neg (Nat.not_le_of_lt (h80 wb hw))]
    cases h6 : enc.webp60 with
    | error e => rfl
    | ok cwb => simp only [h6, if_neg (Nat.not_le_of_lt (h60 cwb h6))]

/-- Any successful result of `processImage` is within the ceiling and tagged
png. -/
theorem processImage_ok_size (enc : SharpCodec) (img : ProcessedImage)
    (h : processImage enc = Except.ok img) :
    img.size ≤ MAX_IMAGE_BYTES ∧ img.format = "png" := by
  unfold processImage at h
  cases hw : webpStage enc with
  | some i =>
    simp only [hw] at h; cases h; exact webpStage_size enc _ hw
  | none =>
    simp only [hw] at h
    cases hp : enc.pngFull with
    | error e => simp [hp] at h
    | ok pb =>
      simp only [hp] at h
      by_cases hlen : MAX_IMAGE_BYTES < pb.len
      · rw [if_pos hlen] at h
        cases hs : enc.pngScaled (scaledWidth pb.len) (scaledHeight pb.len) 128 with
        | error e => simp [hs] at h
        | ok cpb =>
          simp only [hs] at h
          by_cases h2 : MAX_IMAGE_BYTES < cpb.len
          · rw [if_pos h2] at h; exact absurd h (by simp)
          · rw [if_neg h2] at h; cases h; exact ⟨Nat.le_of_not_lt h2, rfl⟩
      · rw [if_neg hlen] at h; cases h; exact ⟨Nat.le_of_not_lt hlen, rfl⟩

/-- When every rung is oversized, `processImage` fails with the wrapped
too-large error. -/
theorem processImage_too_large_aux (enc : SharpCodec) (pb sb : ImgBuffer)
    (h80 : ∀ b, enc.webp80 = Except.ok b → MAX_IMAGE_BYTES < b.len)
    (h60 : ∀ b, enc.webp60 = Except.ok b → MAX_IMAGE_BYTES < b.len)
    (hp : enc.pngFull = Except.ok pb) (hpb : MAX_IMAGE_BYTES < pb.len)
    (hs : enc.pngScaled (scaledWidth pb.len) (scaledHeight pb.len) 128 = Except.ok sb)
    (hsb : MAX_IMAGE_BYTES < sb.len) :
    processImage enc =
      Except.error "Failed to process image: Image is too large even after compression" := by
  have hwn : webpStage enc = none := webpStage_none enc h80 h60
  unfold processImage
  simp only [hwn, hp, if_pos hpb, hs, if_pos hsb]

/-! ## Claim theorems for the image ladder -/

/-- C1: for every codec outcome, a successful `processImage` result is at most
1 MiB (1048576 bytes); and when every rung of the re-encoding ladder produces an
oversized payload, `processImage` fails with the explicit
`Image is too large even after compression` error (wrapped by the outer catch
in `Failed to process image: `) instead of returning an oversized payload. -/
theorem processImage_size_ceiling (enc : SharpCodec) :
    (∀ img, processImage enc = Except.ok img → img.size ≤ 1048576) ∧
    (∀ pb sb,
      (∀ b, enc.webp80 = Except.ok b → 1048576 < b.len) →
      (∀ b, enc.webp60 = Except.ok b → 1048576 < b.len) →
      enc.pngFull = Except.ok pb → 1048576 < pb.len →
      enc.pngScaled (scaledWidth pb.len) (scaledHeight pb.len) 128 = Except.ok sb →
      1048576 < sb.len →
      processImage enc =
        Except.error "Failed to process image: Image is too large even after compression") := by
  have hM : MAX_IMAGE_BYTES = 1048576 := rfl
  constructor
  · intro img h
    exact hM ▸ (processImage_ok_size enc img h).1
  · intro pb sb h80 h60 hp hpb hs hsb
    exact processImage_too_large_aux enc pb sb (hM ▸ h80) (hM ▸ h60) hp (hM ▸ hpb) hs (hM ▸ hsb)

/-- Witness for C1: a concrete codec on which every rung is oversized yields
the too-large error. -/
theorem processImage_size_ceiling_witness :
    processImage
      { webp80 := Except.ok { len := 2000000, b64 := "A" }
      , webp60 := Except.ok { len := 1900000, b64 := "B" }
      , pngFull := Except.ok { len := 3000000, b64 := "C" }
      , pngScaled := fun _ _ _ => Except.ok { len := 1200000, b64 := "D" } } =
      Except.error "Failed to process image: Image is too large even after compression" :=
  (processImage_size_ceiling _).2 { len := 3000000, b64 := "C" } { len := 1200000, b64 := "D" }
    (fun b hb => by cases hb; decide)
    (fun b hb => by cases hb; decide)
    rfl (by decide) rfl (by decide)

/-- C4: when the first WebP rung (quality 80) exceeds 1 MiB and the second,
near-lossless rung (quality 60) is 900 KB (921600 bytes), `processImage`
returns the second-pass payload: the data string begins with the WebP prefix
`data:image/webp;base64,` and the reported size is the second buffer byte
length 921600. -/
theorem processImage_second_rung (enc : SharpCodec) (wb cwb : ImgBuffer)
    (h80 : enc.webp80 = Except.ok wb) (h80big : 1048576 < wb.len)
    (h60 : enc.webp60 = Except.ok cwb) (h60len : cwb.len = 921600) :
    processImage enc =
      Except.ok { data := "data:image/webp;base64," ++ cwb.b64, format := "png", size := 921600 } ∧
    ∃ rest, ("data:image/webp;base64," ++ cwb.b64) = "data:image/webp;base64," ++ rest := by
  have hM : MAX_IMAGE_BYTES = 1048576 := rfl
  have hle : cwb.len ≤ MAX_IMAGE_BYTES := by rw [h60len]; decide
  have hw : webpStage enc =
      some { data := "data:image/webp;base64," ++ cwb.b64, format := "png", size := cwb.len } := by
    unfold webpStage
    simp only [h80, if_neg (Nat.not_le_of_lt (hM ▸ h80big)), h60, if_pos hle]
  constructor
  · unfold processImage
    rw [hw, h60len]
  · exact ⟨cwb.b64, rfl⟩

/-- Witness for C4: a concrete codec whose first rung is 2000000 bytes and
whose second rung is 921600 bytes. -/
theorem processImage_second_rung_witness :
    processImage
      { webp80 := Except.ok { len := 2000000, b64 := "A" }
      , webp60 := Except.ok { len := 921600, b64 := "E" }
      , pngFull := Except.error "unused"
      , pngScaled := fun _ _ _ => Except.error "unused" } =
      Except.ok { data := "data:image/webp;base64,E", format := "png", size := 921600 } :=
  (processImage_second_rung _ { len := 2000000, b64 := "A" } { len := 921600, b64 := "E" }
    rfl (by decide) rfl rfl).1

/-- C5: when the lossless PNG fallback exceeds the ceiling, the rescale rung is
invoked at dimensions floor(900 * s) by floor(600 * s), where s is the square
root of 1048576 over the PNG byte length, with the palette reduced to 128
colours; if that re-encode still exceeds the ceiling, the call fails with the
too-large error. -/
theorem processImage_rescale_rung (enc : SharpCodec) (pb : ImgBuffer)
    (h80 : ∀ b, enc.webp80 = Except.ok b → 1048576 < b.len)
    (h60 : ∀ b, enc.webp60 = Except.ok b → 1048576 < b.len)
    (hp : enc.pngFull = Except.ok pb) (hbig : 1048576 < pb.len) :
    scaledWidth pb.len = ⌊(900 : ℝ) * Real.sqrt (1048576 / (pb.len : ℝ))⌋₊ ∧
    scaledHeight pb.len = ⌊(600 : ℝ) * Real.sqrt (1048576 / (pb.len : ℝ))⌋₊ ∧
    ∀ sb, enc.pngScaled (scaledWidth pb.len) (scaledHeight pb.len) 128 = Except.ok sb →
      1048576 < sb.len →
      processImage enc =
        Except.error "Failed to process image: Image is too large even after compression" := by
  have hM : MAX_IMAGE_BYTES = 1048576 := rfl
  refine ⟨?_, ?_, ?_⟩
  · simpa using scaled_dim_eq 900 pb.len
  · simpa using scaled_dim_eq 600 pb.len
  · intro sb hs hsb
    exact processImage_too_large_aux enc pb sb (hM ▸ h80) (hM ▸ h60) hp (hM ▸ hbig) hs (hM ▸ hsb)

/-- Witness for C5: concrete codec whose PNG fallback is 2000000 bytes. -/
theorem processImage_rescale_rung_witness :
    scaledWidth 2000000 = ⌊(900 : ℝ) * Real.sqrt (1048576 / (2000000 : ℝ))⌋₊ :=
  have h := processImage_rescale_rung
    { webp80 := Except.error "w80"
    , webp60 := Except.error "w60"
    , pngFull := Except.ok { len := 2000000, b64 := "C" }
    , pngScaled := fun _ _ _ => Except.ok { len := 1500000, b64 := "D" } }
    { len := 2000000, b64 := "C" }
    (fun b hb => by cases hb) (fun b hb => by cases hb) rfl (by decide)
  by simpa using h.1

/-- C10: every successful `processImage` result carries the literal format tag
`png`, no matter which rung produced the payload, including when the embedded
data prefix is `data:image/webp;base64,`; and `saveImage` always derives a
filename ending in `.webp` whatever the payload encoding, so the embedded data
prefix is the only reliable format indicator. -/
theorem processImage_format_tag_saveImage :
    (∀ enc img, processImage enc = Except.ok img → img.format = "png") ∧
    (∃ enc img, processImage enc = Except.ok img ∧
      (∃ rest, img.data = "data:image/webp;base64," ++ rest) ∧ img.format = "png") ∧
    (∀ img now, ∃ stem, (saveImage img now).filepath = stem ++ ".webp") := by
  refine ⟨?_, ?_, ?_⟩
  · intro enc img h
    exact (processImage_ok_size enc img h).2
  · exact ⟨{ webp80 := Except.ok { len := 100, b64 := "Qk" }
           , webp60 := Except.error "unused"
           , pngFull := Except.error "unused"
           , pngScaled := fun _ _ _ => Except.error "unused" },
      { data := "data:image/webp;base64,Qk", format := "png", size := 100 },
      rfl, ⟨"Qk", rfl⟩, rfl⟩
  · intro img now
    exact ⟨SCREENSHOT_DIR ++ "/screenshot_" ++ toString now, rfl⟩

/-- Witness for C10: the first conjunct applied at a concrete codec. -/
theorem processImage_format_tag_saveImage_witness :
    ({ data := "data:image/webp;base64,Qk", format := "png", size := 100 } : ProcessedImage).format
      = "png" :=
  processImage_format_tag_saveImage.1
    { webp80 := Except.ok { len := 100, b64 := "Qk" }
    , webp60 := Except.error "unused"
    , pngFull := Except.error "unused"
    , pngScaled := fun _ _ _ => Except.error "unused" }
    { data := "data:image/webp;base64,Qk", format := "png", size := 100 } rfl

/-! ## Network event capture (source: chrome-api, `captureNetworkEvents`) -/

/-- The partial record built by the `requestWillBeSent` handler before a
response arrives. -/
structure PartialReq where
  type : String
  method : String
  url : String
  requestHeaders : List (String × String)
  requestTime : ℚ
  deriving DecidableEq, Repr

/-- A completed network event record as returned by `captureNetworkEvents`. -/
structure NetRecord where
  type : String
  method : String
  url : String
  status : Nat
  statusText : String
  requestHeaders : List (String × String)
  responseHeaders : List (String × String)
  requestTime : ℚ
  responseTime : ℚ
  deriving DecidableEq, Repr

/-- The two CDP Network notifications the source registers handlers for,
carrying the fields the handlers read. -/
inductive NetEvent where
  | requestWillBeSent (requestId : String) (resourceType : Option String)
      (method url : String) (headers : List (String × String)) (timestamp : ℚ)
  | responseReceived (requestId : String) (status : Nat) (statusText : String)
      (headers : List (String × String)) (timestamp : ℚ)
  deriving DecidableEq, Repr

/-- The `filters` option of `captureNetworkEvents`. -/
structure NetFilters where
  types : Option (List String) := none
  urlPattern : Option String := none

/-- ASCII lowercasing of `toLowerCase` (resource types are ASCII), written
over the character list so that it evaluates by `decide`. -/
def lowerStr (s : String) : String := String.mk (s.data.map Char.toLower)

/-- The classification `params.type?.toLowerCase() === 'xhr' ? 'xhr' : 'fetch'`:
an absent or non-xhr resource type is classified `fetch`. -/
def classifyType (resourceType : Option String) : String :=
  match resourceType with
  | some s => if lowerStr s = "xhr" then "xhr" else "fetch"
  | none => "fetch"

/-- The filter checks of the `requestWillBeSent` handler.  `rmatch` is the
oracle for the JavaScript `url.match(pattern)` regular-expression test; an
empty `urlPattern` string is falsy in JavaScript, so it disables the URL
check. -/
def passesFilters (filters : Option NetFilters) (rmatch : String → String → Bool)
    (ty url : String) : Bool :=
  match filters with
  | none => true
  | some f =>
    (match f.types with
     | some ts => ts.contains ty
     | none => true) &&
    (match f.urlPattern with
     | some p => p == "" || rmatch url p
     | none => true)

/-- The mutable state shared by the two handlers: the `requests` map keyed by
the per-request identifier (a JavaScript `Map`, modelled by its get function)
and the completed `events` list. -/
structure CaptureState where
  requests : String → Option PartialReq
  events : List NetRecord

/-- One delivered notification processed by the corresponding handler,
translated from `requestHandler` / `responseHandler` in the source: the request
handler classifies the type, applies the filters and only then stores the
partial record; the response handler completes a stored record and appends it
to the events list, leaving unmatched responses ignored. -/
def netStep (filters : Option NetFilters) (rmatch : String → String → Bool)
    (st : CaptureState) : NetEvent → CaptureState
  | NetEvent.requestWillBeSent id rtype method url headers ts =>
    let req : PartialReq :=
      { type := classifyType rtype, method := method, url := url
      , requestHeaders := headers, requestTime := ts }
    if passesFilters filters rmatch req.type req.url then
      { st with requests := fun k => if k = id then some req else st.requests k }
    else st
  | NetEvent.responseReceived id status statusText headers ts =>
    match st.requests id with
    | some req =>
      { st with events := st.events ++
          [{ type := req.type, method := req.method, url := req.url
           , status := status, statusText := statusText
           , requestHeaders := req.requestHeaders, responseHeaders := headers
           , requestTime := req.requestTime, responseTime := ts }] }
    | none => st

/-- The event deliveries of one capture window, processed in order. -/
def runCapture (filters : Option NetFilters) (rmatch : String → String → Bool) :
    CaptureState → List NetEvent → CaptureState
  | st, [] => st
  | st, e :: rest => runCapture filters rmatch (netStep filters rmatch st e) rest

/-- The list returned by `captureNetworkEvents` for a given delivered trace. -/
def captureNetworkEvents (filters : Option NetFilters) (rmatch : String → String → Bool)
    (trace : List NetEvent) : List NetRecord :=
  (runCapture filters rmatch { requests := fun _ => none, events := [] } trace).events

/-- JavaScript `v || dflt` on an optional number: `0` is falsy. -/
def jsOrQ (v : Option ℚ) (dflt : ℚ) : ℚ :=
  match v with
  | some q => if q = 0 then dflt else q
  | none => dflt

/-- The options object of `captureNetworkEvents`. -/
structure CaptureOptions where
  duration : Option ℚ := none
  filters : Option NetFilters := none

/-- The API-level call: the programmed wait in milliseconds,
`(options.duration || 10) * 1000`, plus the events collected during the
window. -/
def captureNetworkEventsApi (opts : CaptureOptions) (rmatch : String → String → Bool)
    (trace : List NetEvent) : ℚ × List NetRecord :=
  (jsOrQ opts.duration 10 * 1000,
   (runCapture opts.filters rmatch { requests := fun _ => none, events := [] } trace).events)

/-- The zod schema bound of the `capture_network_events` tool:
`z.number().min(1).max(60).optional()`.  Out-of-range durations are rejected,
not clamped. -/
def validDuration (d : Option ℚ) : Bool :=
  match d with
  | none => true
  | some q => decide (1 ≤ q) && decide (q ≤ 60)

/-- The tool-level call: schema validation happens before the adapter runs; a
schema violation produces a tool error (message modelled, the exact text comes
from the MCP SDK). -/
def captureNetworkEventsTool (opts : CaptureOptions) (rmatch : String → String → Bool)
    (trace : List NetEvent) : Except String (ℚ × List NetRecord) :=
  if validDuration opts.duration then
    Except.ok (captureNetworkEventsApi opts rmatch trace)
  else Except.error "Invalid arguments: duration must be between 1 and 60"

/-- Counterexample for C2: a caller-supplied duration of 120 seconds is
rejected by the tool schema before any capture runs; it is not clamped to 60,
and no capture using a 60000 ms wait takes place. -/
theorem capture_duration_not_clamped :
    captureNetworkEventsTool { duration := some 120 } (fun _ _ => true) [] =
      Except.error "Invalid arguments: duration must be between 1 and 60" ∧
    ∀ evs, captureNetworkEventsTool { duration := some 120 } (fun _ _ => true) [] ≠
      Except.ok ((60 : ℚ) * 1000, evs) := by
  have h : captureNetworkEventsTool { duration := some 120 } (fun _ _ => true) ([] : List NetEvent)
      = Except.error "Invalid arguments: duration must be between 1 and 60" := by
    unfold captureNetworkEventsTool
    rw [if_neg]
    intro hcontra
    rw [show validDuration (some 120) = false from by decide] at hcontra
    cases hcontra
  exact ⟨h, fun evs hev => by rw [h] at hev; cases hev⟩

/-- C2 amended: the tool validates the duration against the schema range 1-60
instead of clamping; an in-range duration is used exactly as supplied, an
omitted duration defaults to 10 seconds, an out-of-range duration makes the
call fail before any capture; the programmed wait is the used duration times
1000 milliseconds. -/
theorem capture_duration_validated (opts : CaptureOptions)
    (rmatch : String → String → Bool) (trace : List NetEvent) :
    (∀ q, opts.duration = some q → 1 ≤ q → q ≤ 60 →
      captureNetworkEventsTool opts rmatch trace =
        Except.ok (q * 1000,
          (runCapture opts.filters rmatch { requests := fun _ => none, events := [] } trace).events)) ∧
    (opts.duration = none →
      captureNetworkEventsTool opts rmatch trace =
        Except.ok (10 * 1000,
          (runCapture opts.filters rmatch { requests := fun _ => none, events := [] } trace).events)) ∧
    (∀ q, opts.duration = some q → (q < 1 ∨ 60 < q) →
      captureNetworkEventsTool opts rmatch trace =
        Except.error "Invalid arguments: duration must be between 1 and 60") := by
  refine ⟨?_, ?_, ?_⟩
  · intro q hd h1 h60
    have hq0 : q ≠ 0 := by intro h0; rw [h0] at h1; norm_num at h1
    unfold captureNetworkEventsTool
    rw [if_pos (by simp [validDuration, hd, h1, h60])]
    unfold captureNetworkEventsApi
    rw [hd]
    simp [jsOrQ, hq0]
  · intro hd
    unfold captureNetworkEventsTool
    rw [if_pos (by simp [validDuration, hd])]
    unfold captureNetworkEventsApi
    rw [hd]
    simp [jsOrQ]
  · intro q hd hout
    unfold captureNetworkEventsTool
    rw [if_neg]
    intro hcontra
    rw [hd] at hcontra
    unfold validDuration at hcontra
    rcases hout with hlt | hgt
    · simp only [Bool.and_eq_true, decide_eq_true_eq] at hcontra
      exact absurd hcontra.1 (not_le.mpr hlt)
    · simp only [Bool.and_eq_true, decide_eq_true_eq] at hcontra
      exact absurd hcontra.2 (not_le.mpr hgt)

/-- Witness for the amended C2 at duration 5 over an empty trace. -/
theorem capture_duration_validated_witness :
    captureNetworkEventsTool { duration := some 5 } (fun _ _ => true) [] =
      Except.ok ((5 : ℚ) * 1000,
        (runCapture none (fun _ _ => true) { requests := fun _ => none, events := [] } []).events) :=
  (capture_duration_validated { duration := some 5 } (fun _ _ => true) []).1 5 rfl
    (by norm_num) (by norm_num)

/-- Provenance of a stored partial record: it was created by a
`requestWillBeSent` occurring in the processed trace, it passed the filters,
and its fields come from that notification. -/
def ReqProvenance (filters : Option NetFilters) (rmatch : String → String → Bool)
    (trace : List NetEvent) (id : String) (req : PartialReq) : Prop :=
  ∃ rtype,
    List.Sublist
      [NetEvent.requestWillBeSent id rtype req.method req.url req.requestHeaders req.requestTime]
      trace ∧
    req.type = classifyType rtype ∧
    passesFilters filters rmatch req.type req.url = true

/-- Provenance of an emitted record: a `requestWillBeSent` followed later by a
`responseReceived` with the same request identifier occur in the trace, the
request passed the filters, and the record fields come from that pair. -/
def RecProvenance (filters : Option NetFilters) (rmatch : String → String → Bool)
    (trace : List NetEvent) (r : NetRecord) : Prop :=
  ∃ id rtype,
    List.Sublist
      [NetEvent.requestWillBeSent id rtype r.method r.url r.requestHeaders r.requestTime,
       NetEvent.responseReceived id r.status r.statusText r.responseHeaders r.responseTime]
      trace ∧
    r.type = classifyType rtype ∧
    passesFilters filters rmatch r.type r.url = true

theorem reqProvenance_mono {filters rmatch pre more id req}
    (h : ReqProvenance filters rmatch pre id req) :
    ReqProvenance filters rmatch (pre ++ more) id req := by
  obtain ⟨rtype, hs, h1, h2⟩ := h
  exact ⟨rtype, hs.trans (List.sublist_append_left pre more), h1, h2⟩

theorem recProvenance_mono {filters rmatch pre more r}
    (h : RecProvenance filters rmatch pre r) :
    RecProvenance filters rmatch (pre ++ more) r := by
  obtain ⟨id, rtype, hs, h1, h2⟩ := h
  exact ⟨id, rtype, hs.trans (List.sublist_append_left pre more), h1, h2⟩

/-- Invariant of the capture loop: every stored partial record and every
emitted record has provenance in the already-processed trace prefix. -/
theorem runCapture_inv (filters : Option NetFilters) (rmatch : String → String → Bool) :
    ∀ (evs pre : List NetEvent) (st : CaptureState),
    (∀ id req, st.requests id = some req → ReqProvenance filters rmatch pre id req) →
    (∀ r ∈ st.events, RecProvenance filters rmatch pre r) →
    (∀ id req, (runCapture filters rmatch st evs).requests id = some req →
      ReqProvenance filters rmatch (pre ++ evs) id req) ∧
    (∀ r ∈ (runCapture filters rmatch st evs).events,
      RecProvenance filters rmatch (pre ++ evs) r)
  | [], pre, st => by
    intro hreq hrec
    simpa [runCapture] using ⟨hreq, hrec⟩
  | e :: rest, pre, st => by
    intro hreq hrec
    have hstep :
        (∀ id req, (netStep filters rmatch st e).requests id = some req →
          ReqProvenance filters rmatch (pre ++ [e]) id req) ∧
        (∀ r ∈ (netStep filters rmatch st e).events,
          RecProvenance filters rmatch (pre ++ [e]) r) := by
      cases e with
      | requestWillBeSent id rtype method url headers ts =>
        by_cases hpass : passesFilters filters rmatch (classifyType rtype) url = true
        · constructor
          · intro id2 req2 h2
            simp only [netStep, hpass, if_pos] at h2
            by_cases hid : id2 = id
            · subst hid
              rw [if_pos rfl] at h2
              cases h2
              exact ⟨rtype, List.sublist_append_right pre _, rfl, hpass⟩
            · rw [if_neg hid] at h2
              exact reqProvenance_mono (hreq id2 req2 h2)
          · intro r hr
            simp only [netStep, hpass, if_pos] at hr
            exact recProvenance_mono (hrec r hr)
        · have hnot : passesFilters filters rmatch (classifyType rtype) url = false :=
            Bool.eq_false_iff.mpr hpass
          constructor
          · intro id2 req2 h2
            simp only [netStep, hnot, Bool.false_eq_true, if_false] at h2
            exact reqProvenance_mono (hreq id2 req2 h2)
          · intro r hr
            simp only [netStep, hnot, Bool.false_eq_true, if_false] at hr
            exact recProvenance_mono (hrec r hr)
      | responseReceived id status statusText headers ts =>
        cases hget : st.requests id with
        | none =>
          constructor
          · intro id2 req2 h2
            simp only [netStep, hget] at h2
            exact reqProvenance_mono (hreq id2 req2 h2)
          · intro r hr
            simp only [netStep, hget] at hr
            exact recProvenance_mono (hrec r hr)
        | some req =>
          constructor
          · intro id2 req2 h2
            simp only [netStep, hget] at h2
            exact reqProvenance_mono (hreq id2 req2 h2)
          · intro r hr
            simp only [netStep, hget, List.mem_append, List.mem_singleton] at hr
            cases hr with
            | inl hold => exact recProvenance_mono (hrec r hold)
            | inr hnew =>
              obtain ⟨rtype, hs, h1, h2⟩ := hreq id req hget
              subst hnew
              refine ⟨id, rtype, ?_, h1, h2⟩
              exact hs.append (List.Sublist.refl
                [NetEvent.responseReceived id status statusText headers ts])
          
    have hmain := runCapture_inv filters rmatch rest (pre ++ [e])
      (netStep filters rmatch st e) hstep.1 hstep.2
    rw [List.append_cons pre e rest] 
    exact ⟨fun id req h => hmain.1 id req (by simpa [runCapture] using h),
           fun r hr => hmain.2 r (by simpa [runCapture] using hr)⟩

/-- Scenario trace for C3: one XHR and one fetch request issued during the
window, both answered. -/
def xhrFetchTrace : List NetEvent :=
  [ NetEvent.requestWillBeSent "req-1" (some "XHR") "GET" "https://example.test/xhr" [] 0
  , NetEvent.requestWillBeSent "req-2" (some "Fetch") "GET" "https://example.test/data" [] 1
  , NetEvent.responseReceived "req-1" 200 "OK" [] 2
  , NetEvent.responseReceived "req-2" 200 "OK" [] 3 ]

/-- The single record the C3 scenario returns. -/
def fetchScenarioRecord : NetRecord :=
  { type := "fetch", method := "GET", url := "https://example.test/data"
  , status := 200, statusText := "OK", requestHeaders := [], responseHeaders := []
  , requestTime := 1, responseTime := 3 }

/-- C3: (1) every record returned by `captureNetworkEvents` exists only because
a `responseReceived` with the same request identifier was observed after a
prior `requestWillBeSent` for that identifier, the record timing fields coming
from that pair; (2) every returned record passes the caller filters, which were
applied before the partial record was stored; (3) a request whose reported
resource type is not `xhr` case-insensitively is classified `fetch`, and a tab
issuing one XHR and one fetch during the window with filter types `[fetch]`
yields exactly one record, typed `fetch`. -/
theorem captureNetworkEvents_records :
    (∀ filters rmatch trace r,
      r ∈ captureNetworkEvents filters rmatch trace →
      (∃ id rtype,
        List.Sublist
          [NetEvent.requestWillBeSent id rtype r.method r.url r.requestHeaders r.requestTime,
           NetEvent.responseReceived id r.status r.statusText r.responseHeaders r.responseTime]
          trace ∧ r.type = classifyType rtype) ∧
      passesFilters filters rmatch r.type r.url = true) ∧
    (∀ rtype, (∀ s, rtype = some s → lowerStr s ≠ "xhr") → classifyType rtype = "fetch") ∧
    captureNetworkEvents (some { types := some ["fetch"], urlPattern := none })
      (fun _ _ => true) xhrFetchTrace = [fetchScenarioRecord] ∧
    fetchScenarioRecord.type = "fetch" := by
  refine ⟨?_, ?_, ?_, rfl⟩
  · intro filters rmatch trace r hr
    unfold captureNetworkEvents at hr
    have h := (runCapture_inv filters rmatch trace []
      { requests := fun _ => none, events := [] }
      (fun id req hcontra => by cases hcontra)
      (fun r2 hcontra => by cases hcontra)).2 r hr
    rw [List.nil_append] at h
    obtain ⟨id, rtype, hs, h1, h2⟩ := h
    exact ⟨⟨id, rtype, hs, h1⟩, h2⟩
  · intro rtype hne
    cases rtype with
    | none => rfl
    | some s =>
      simp only [classifyType]
      rw [if_neg (hne s rfl)]
  · decide

/-- Witness for C3: the provenance conjunct applied to the scenario record. -/
theorem captureNetworkEvents_records_witness :
    (∃ id rtype,
      List.Sublist
        [NetEvent.requestWillBeSent id rtype fetchScenarioRecord.method fetchScenarioRecord.url
           fetchScenarioRecord.requestHeaders fetchScenarioRecord.requestTime,
         NetEvent.responseReceived id fetchScenarioRecord.status fetchScenarioRecord.statusText
           fetchScenarioRecord.responseHeaders fetchScenarioRecord.responseTime]
        xhrFetchTrace ∧ fetchScenarioRecord.type = classifyType rtype) ∧
    passesFilters (some { types := some ["fetch"], urlPattern := none }) (fun _ _ => true)
      fetchScenarioRecord.type fetchScenarioRecord.url = true :=
  captureNetworkEvents_records.1 (some { types := some ["fetch"], urlPattern := none })
    (fun _ _ => true) xhrFetchTrace fetchScenarioRecord (by decide)

/-! ## DOM attribute extraction (source: chrome-api, `queryDOMElements`) -/

/-- The flat CDP attribute array paired up exactly as the extraction loops
index it: position i is a name, position i+1 its value (`none` models the
`undefined` read past the end of an odd-length array). -/
def attrPairs : List String → List (String × Option String)
  | [] => []
  | [n] => [(n, none)]
  | n :: v :: rest => (n, some v) :: attrPairs rest

/-- The test `name.startsWith('aria-')`, written over the character lists so
that it evaluates by `decide`. -/
def isAriaName (name : String) : Bool := "aria-".data.isPrefixOf name.data

/-- One iteration of the ARIA extraction loop: store the pair only when the
name carries the aria- marker.  The object is modelled by its lookup
function. -/
def ariaStep (m : String → Option (Option String)) (kv : String × Option String) :
    String → Option (Option String) :=
  fun k => if isAriaName kv.1 then (if k = kv.1 then some kv.2 else m k) else m k

/-- One iteration of the attribute-conversion loop: store every pair. -/
def attrStep (m : String → Option (Option String)) (kv : String × Option String) :
    String → Option (Option String) :=
  fun k => if k = kv.1 then some kv.2 else m k

/-- The `ariaAttributes` object built by `queryDOMElements`. -/
def extractAriaAttributes (attrs : List String) : String → Option (Option String) :=
  (attrPairs attrs).foldl ariaStep (fun _ => none)

/-- The `attributes` object built by `queryDOMElements`. -/
def extractAttributes (attrs : List String) : String → Option (Option String) :=
  (attrPairs attrs).foldl attrStep (fun _ => none)

/-- The ARIA fold is the full fold restricted to aria- names, for any pair of
starting objects related the same way. -/
theorem aria_foldl_restrict (ps : List (String × Option String)) :
    ∀ (m1 m2 : String → Option (Option String)),
    (∀ k, m1 k = if isAriaName k then m2 k else none) →
    ∀ k, ps.foldl ariaStep m1 k = if isAriaName k then ps.foldl attrStep m2 k else none := by
  induction ps with
  | nil => intro m1 m2 hinv k; exact hinv k
  | cons kv rest ih =>
    intro m1 m2 hinv k
    simp only [List.foldl_cons]
    apply ih
    intro k2
    simp only [ariaStep, attrStep]
    by_cases ha : isAriaName kv.1 = true
    · rw [if_pos ha]
      by_cases hk : k2 = kv.1
      · have hk2 : isAriaName k2 = true := hk ▸ ha
        rw [if_pos hk, if_pos hk2, if_pos hk]
      · rw [if_neg hk, hinv k2]
        by_cases hk2 : isAriaName k2 = true
        · rw [if_pos hk2, if_pos hk2, if_neg hk]
        · rw [if_neg hk2, if_neg hk2]
    · rw [if_neg ha, hinv k2]
      by_cases hk2 : isAriaName k2 = true
      · have hk : ¬ k2 = kv.1 := fun h => ha (h ▸ hk2)
        rw [if_pos hk2, if_pos hk2, if_neg hk]
      · rw [if_neg hk2, if_neg hk2]

/-- C6: for every element snapshot, `ariaAttributes` is exactly the
restriction of `attributes` to names prefixed `aria-`: every pair of
`ariaAttributes` appears in `attributes`, and every pair of `attributes` whose
name has the aria- marker appears in `ariaAttributes`. -/
theorem queryDOM_aria_restriction (attrs : List String) (name : String) :
    extractAriaAttributes attrs name =
      (if isAriaName name then extractAttributes attrs name else none) ∧
    (∀ v, extractAriaAttributes attrs name = some v → extractAttributes attrs name = some v) ∧
    (∀ v, extractAttributes attrs name = some v → isAriaName name = true →
      extractAriaAttributes attrs name = some v) := by
  have h := aria_foldl_restrict (attrPairs attrs) (fun _ => none) (fun _ => none)
    (fun k => by by_cases hk : isAriaName k = true
                 · rw [if_pos hk]
                 · rw [if_neg hk]) name
  refine ⟨h, ?_, ?_⟩
  · intro v hv
    rw [extractAriaAttributes] at hv
    rw [h] at hv
    by_cases hk : isAriaName name = true
    · rw [if_pos hk] at hv; exact hv
    · rw [if_neg hk] at hv; cases hv
  · intro v hv hk
    rw [extractAriaAttributes, h, if_pos hk]
    exact hv

/-- Witness for C6 at a concrete attribute array. -/
theorem queryDOM_aria_restriction_witness :
    extractAttributes ["aria-label", "Close", "class", "btn"] "aria-label" = some (some "Close") :=
  (queryDOM_aria_restriction ["aria-label", "Close", "class", "btn"] "aria-label").2.1
    (some "Close") (by decide)

/-! ## Protocol-call traces (source: chrome-api, `clickElement` and
`captureScreenshot`) -/

/-- The protocol calls these operations make, as trace actions. -/
inductive CDPCall where
  | connect
  | domEnable
  | runtimeEnable
  | pageEnable
  | getDocument
  | querySelectorAll (selector : String)
  | getBoxModel (nodeId : Nat)
  | dispatchClickEval (selector : String) (clientX clientY : ℤ)
  | registerConsoleListener
  | raceConsoleTimeout (ms : Nat)
  | setDeviceMetricsOverride (width height : ℤ)
  | clearDeviceMetricsOverride
  | captureScreenshotCall (format : String) (quality : Option Nat)
      (captureBeyondViewport : Bool)
  | close
  deriving DecidableEq, Repr

/-- A CDP box model: the content quad and the box dimensions, the three parts
these operations read. -/
structure BoxModel where
  content : List ℚ
  width : ℚ
  height : ℚ
  deriving DecidableEq, Repr

/-- JavaScript `Math.round`: floor of x + 1/2. -/
def jsRound (q : ℚ) : ℤ := ⌊q + 1 / 2⌋

/-- JavaScript `v || dflt` on an optional number: `0` is falsy. -/
def jsOrN (v : Option Nat) (dflt : Nat) : Nat :=
  match v with
  | some q => if q = 0 then dflt else q
  | none => dflt

/-- Outcomes of the protocol calls `clickElement` makes.  `evalClick n` is the
nth `Runtime.evaluate` of the synthesized click expression; `raceMessages` is
the console output collected when the race between the console signal and the
timeout resolves. -/
structure ClickEnv where
  connect : Except String Unit
  domEnable : Except String Unit
  runtimeEnable : Except String Unit
  getDocument : Except String Nat
  querySelectorAll : Nat → String → Except String (List Nat)
  getBoxModel : Nat → Except String BoxModel
  evalClick : Nat → Except String Unit
  raceMessages : List String

/-- `clickElement` translated from the source, producing the protocol-call
trace and the result.  The source dispatches the synthesized click expression
once (before setting up the console listener), registers the console listener
and the 1000 ms timeout, dispatches the identical click expression a second
time, races the two promises and returns the collected console output; the
finally block closes the session whenever the connect succeeded. -/
def clickElement (env : ClickEnv) (selector : String) :
    List CDPCall × Except String (List String) :=
  match env.connect with
  | Except.error e => ([CDPCall.connect], Except.error e)
  | Except.ok _ =>
    match env.domEnable with
    | Except.error e => ([CDPCall.connect, CDPCall.domEnable, CDPCall.close], Except.error e)
    | Except.ok _ =>
      match env.runtimeEnable with
      | Except.error e =>
        ([CDPCall.connect, CDPCall.domEnable, CDPCall.runtimeEnable, CDPCall.close],
         Except.error e)
      | Except.ok _ =>
        match env.getDocument with
        | Except.error e =>
          ([CDPCall.connect, CDPCall.domEnable, CDPCall.runtimeEnable, CDPCall.getDocument,
            CDPCall.close], Except.error e)
        | Except.ok root =>
          match env.querySelectorAll root selector with
          | Except.error e =>
            ([CDPCall.connect, CDPCall.domEnable, CDPCall.runtimeEnable, CDPCall.getDocument,
              CDPCall.querySelectorAll selector, CDPCall.close], Except.error e)
          | Except.ok nodeIds =>
            if nodeIds = [] then
              ([CDPCall.connect, CDPCall.domEnable, CDPCall.runtimeEnable, CDPCall.getDocument,
                CDPCall.querySelectorAll selector, CDPCall.close],
               Except.error ("No element found matching selector: " ++ selector))
            else
              match env.getBoxModel (nodeIds.headD 0) with
              | Except.error e =>
                ([CDPCall.connect, CDPCall.domEnable, CDPCall.runtimeEnable, CDPCall.getDocument,
                  CDPCall.querySelectorAll selector, CDPCall.getBoxModel (nodeIds.headD 0),
                  CDPCall.close], Except.error e)
              | Except.ok model =>
                let cx := jsRound (model.content.getD 0 0 + model.width / 2)
                let cy := jsRound (model.content.getD 1 0 + model.height / 2)
                match env.evalClick 1 with
                | Except.error e =>
                  ([CDPCall.connect, CDPCall.domEnable, CDPCall.runtimeEnable,
                    CDPCall.getDocument, CDPCall.querySelectorAll selector,
                    CDPCall.getBoxModel (nodeIds.headD 0),
                    CDPCall.dispatchClickEval selector cx cy, CDPCall.close], Except.error e)
                | Except.ok _ =>
                  match env.evalClick 2 with
                  | Except.error e =>
                    ([CDPCall.connect, CDPCall.domEnable, CDPCall.runtimeEnable,
                      CDPCall.getDocument, CDPCall.querySelectorAll selector,
                      CDPCall.getBoxModel (nodeIds.headD 0),
                      CDPCall.dispatchClickEval selector cx cy, CDPCall.registerConsoleListener,
                      CDPCall.dispatchClickEval selector cx cy, CDPCall.close], Except.error e)
                  | Except.ok _ =>
                    ([CDPCall.connect, CDPCall.domEnable, CDPCall.runtimeEnable,
                      CDPCall.getDocument, CDPCall.querySelectorAll selector,
                      CDPCall.getBoxModel (nodeIds.headD 0),
                      CDPCall.dispatchClickEval selector cx cy, CDPCall.registerConsoleListener,
                      CDPCall.dispatchClickEval selector cx cy, CDPCall.raceConsoleTimeout 1000,
                      CDPCall.close], Except.ok env.raceMessages)

/-- Decidable equality of `Except` outcomes, used to evaluate witnesses. -/
instance exceptDecEq {e a : Type} [DecidableEq e] [DecidableEq a] :
    DecidableEq (Except e a) := fun x y =>
  match x, y with
  | Except.error e1, Except.error e2 =>
    if h : e1 = e2 then Decidable.isTrue (by rw [h])
    else Decidable.isFalse (fun hc => h (by cases hc; rfl))
  | Except.error _, Except.ok _ => Decidable.isFalse (fun hc => by cases hc)
  | Except.ok _, Except.error _ => Decidable.isFalse (fun hc => by cases hc)
  | Except.ok a1, Except.ok a2 =>
    if h : a1 = a2 then Decidable.isTrue (by rw [h])
    else Decidable.isFalse (fun hc => h (by cases hc; rfl))

/-- Recognizer for the synthesized click dispatch action. -/
def isClickDispatch : CDPCall → Bool
  | CDPCall.dispatchClickEval _ _ _ => true
  | _ => false

/-- Outcomes of the protocol calls `captureScreenshot` makes. -/
structure ScreenshotEnv where
  connect : Except String Unit
  pageEnable : Except String Unit
  getDocument : Except String Nat
  getBoxModel : Nat → Except String BoxModel
  setDeviceMetricsOverride : Except String Unit
  captureScreenshot : Except String String
  clearDeviceMetricsOverride : Except String Unit

/-- The options object of `captureScreenshot`. -/
structure ScreenshotOptions where
  format : Option String := none
  quality : Option Nat := none
  fullPage : Option Bool := none

/-- The try block of `captureScreenshot` (after a successful connect): enable
the Page domain; when fullPage is set, read the document root, its box model,
and override the device metrics to width 1920 and the ceiling of the measured
height; then capture with `format || 'png'`, quality only for jpeg
(`quality || 80`), and captureBeyondViewport tied to fullPage. -/
def captureScreenshotBody (env : ScreenshotEnv) (opts : ScreenshotOptions) :
    List CDPCall × Except String String :=
  let fullPage := opts.fullPage.getD false
  let fmt := opts.format.getD "png"
  let quality := if opts.format = some "jpeg" then some (jsOrN opts.quality 80) else none
  match env.pageEnable with
  | Except.error e => ([CDPCall.pageEnable], Except.error e)
  | Except.ok _ =>
    if fullPage then
      match env.getDocument with
      | Except.error e => ([CDPCall.pageEnable, CDPCall.getDocument], Except.error e)
      | Except.ok root =>
        match env.getBoxModel root with
        | Except.error e =>
          ([CDPCall.pageEnable, CDPCall.getDocument, CDPCall.getBoxModel root], Except.error e)
        | Except.ok model =>
          match env.setDeviceMetricsOverride with
          | Except.error e =>
            ([CDPCall.pageEnable, CDPCall.getDocument, CDPCall.getBoxModel root,
              CDPCall.setDeviceMetricsOverride 1920 ⌈model.height⌉], Except.error e)
          | Except.ok _ =>
            match env.captureScreenshot with
            | Except.error e =>
              ([CDPCall.pageEnable, CDPCall.getDocument, CDPCall.getBoxModel root,
                CDPCall.setDeviceMetricsOverride 1920 ⌈model.height⌉,
                CDPCall.captureScreenshotCall fmt quality true], Except.error e)
            | Except.ok d =>
              ([CDPCall.pageEnable, CDPCall.getDocument, CDPCall.getBoxModel root,
                CDPCall.setDeviceMetricsOverride 1920 ⌈model.height⌉,
                CDPCall.captureScreenshotCall fmt quality true], Except.ok d)
    else
      match env.captureScreenshot with
      | Except.error e =>
        ([CDPCall.pageEnable, CDPCall.captureScreenshotCall fmt quality false], Except.error e)
      | Except.ok d =>
        ([CDPCall.pageEnable, CDPCall.captureScreenshotCall fmt quality false], Except.ok d)

/-- The whole `captureScreenshot` operation including its finally block: when
the connect succeeded, the finally block first reverts the device metrics when
fullPage was requested (an await whose rejection replaces the result and skips
the close, exactly as a throwing statement inside a JavaScript finally does)
and then closes the session. -/
def captureScreenshotOp (env : ScreenshotEnv) (opts : ScreenshotOptions) :
    List CDPCall × Except String String :=
  match env.connect with
  | Except.error e => ([CDPCall.connect], Except.error e)
  | Except.ok _ =>
    let body := captureScreenshotBody env opts
    if opts.fullPage.getD false then
      match env.clearDeviceMetricsOverride with
      | Except.error e =>
        (CDPCall.connect :: body.1 ++ [CDPCall.clearDeviceMetricsOverride], Except.error e)
      | Except.ok _ =>
        (CDPCall.connect :: body.1 ++ [CDPCall.clearDeviceMetricsOverride, CDPCall.close],
         body.2)
    else
      (CDPCall.connect :: body.1 ++ [CDPCall.close], body.2)

/-- C8: a selector matching zero nodes makes `clickElement` fail with the
no-element-found error naming the selector, before any box model is fetched or
any click dispatched (the session still closes). -/
theorem clickElement_no_match (env : ClickEnv) (selector : String) (root : Nat)
    (hc : env.connect = Except.ok ()) (hd : env.domEnable = Except.ok ())
    (hr : env.runtimeEnable = Except.ok ()) (hg : env.getDocument = Except.ok root)
    (hq : env.querySelectorAll root selector = Except.ok []) :
    clickElement env selector =
      ([CDPCall.connect, CDPCall.domEnable, CDPCall.runtimeEnable, CDPCall.getDocument,
        CDPCall.querySelectorAll selector, CDPCall.close],
       Except.error ("No element found matching selector: " ++ selector)) ∧
    ∀ c ∈ (clickElement env selector).1,
      (∀ n, c ≠ CDPCall.getBoxModel n) ∧ ∀ s x y, c ≠ CDPCall.dispatchClickEval s x y := by
  have h1 : clickElement env selector =
      ([CDPCall.connect, CDPCall.domEnable, CDPCall.runtimeEnable, CDPCall.getDocument,
        CDPCall.querySelectorAll selector, CDPCall.close],
       Except.error ("No element found matching selector: " ++ selector)) := by
    simp [clickElement, hc, hd, hr, hg, hq]
  refine ⟨h1, ?_⟩
  intro c hcmem
  rw [h1] at hcmem
  simp only [List.mem_cons, List.not_mem_nil, or_false] at hcmem
  rcases hcmem with rfl | rfl | rfl | rfl | rfl | rfl <;> exact ⟨by simp, by simp⟩

/-- Witness for C8 at a concrete environment where no node matches. -/
theorem clickElement_no_match_witness :
    clickElement
      { connect := Except.ok (), domEnable := Except.ok (), runtimeEnable := Except.ok ()
      , getDocument := Except.ok 1, querySelectorAll := fun _ _ => Except.ok []
      , getBoxModel := fun _ => Except.error "unused"
      , evalClick := fun _ => Except.error "unused", raceMessages := [] } "#missing" =
      ([CDPCall.connect, CDPCall.domEnable, CDPCall.runtimeEnable, CDPCall.getDocument,
        CDPCall.querySelectorAll "#missing", CDPCall.close],
       Except.error ("No element found matching selector: " ++ "#missing")) :=
  (clickElement_no_match _ "#missing" 1 rfl rfl rfl rfl rfl).1

/-- A successful click environment: one matching node with a box model. -/
def clickEnvC : ClickEnv :=
  { connect := Except.ok (), domEnable := Except.ok (), runtimeEnable := Except.ok ()
  , getDocument := Except.ok 1
  , querySelectorAll := fun _ _ => Except.ok [42]
  , getBoxModel := fun _ => Except.ok { content := [10, 20], width := 30, height := 40 }
  , evalClick := fun _ => Except.ok ()
  , raceMessages := ["[log] clicked"] }

/-- Counterexample for C7: on a successful flow, `clickElement` evaluates the
synthesized click expression twice, not once. -/
theorem clickElement_single_dispatch_cex :
    (clickElement clickEnvC "#btn").1.countP isClickDispatch = 2 ∧
    ¬ (clickElement clickEnvC "#btn").1.countP isClickDispatch = 1 := by
  constructor <;> decide

/-- C7 amended: `clickElement` resolves the first matching node box model,
computes the center point from it, dispatches the synthesized script-level
click at that coordinate twice (once before the console listener is
registered, once after), then races the console signal against the fixed
1000 ms timeout and returns whatever console output arrived (possibly
none). -/
theorem clickElement_flow (env : ClickEnv) (selector : String) (root : Nat)
    (nodeIds : List Nat) (model : BoxModel)
    (hc : env.connect = Except.ok ()) (hd : env.domEnable = Except.ok ())
    (hr : env.runtimeEnable = Except.ok ()) (hg : env.getDocument = Except.ok root)
    (hq : env.querySelectorAll root selector = Except.ok nodeIds)
    (hne : nodeIds ≠ [])
    (hb : env.getBoxModel (nodeIds.headD 0) = Except.ok model)
    (he1 : env.evalClick 1 = Except.ok ()) (he2 : env.evalClick 2 = Except.ok ()) :
    clickElement env selector =
      ([CDPCall.connect, CDPCall.domEnable, CDPCall.runtimeEnable, CDPCall.getDocument,
        CDPCall.querySelectorAll selector, CDPCall.getBoxModel (nodeIds.headD 0),
        CDPCall.dispatchClickEval selector (jsRound (model.content.getD 0 0 + model.width / 2))
          (jsRound (model.content.getD 1 0 + model.height / 2)),
        CDPCall.registerConsoleListener,
        CDPCall.dispatchClickEval selector (jsRound (model.content.getD 0 0 + model.width / 2))
          (jsRound (model.content.getD 1 0 + model.height / 2)),
        CDPCall.raceConsoleTimeout 1000, CDPCall.close],
       Except.ok env.raceMessages) ∧
    (clickElement env selector).1.countP isClickDispatch = 2 := by
  have h1 : clickElement env selector =
      ([CDPCall.connect, CDPCall.domEnable, CDPCall.runtimeEnable, CDPCall.getDocument,
        CDPCall.querySelectorAll selector, CDPCall.getBoxModel (nodeIds.headD 0),
        CDPCall.dispatchClickEval selector (jsRound (model.content.getD 0 0 + model.width / 2))
          (jsRound (model.content.getD 1 0 + model.height / 2)),
        CDPCall.registerConsoleListener,
        CDPCall.dispatchClickEval selector (jsRound (model.content.getD 0 0 + model.width / 2))
          (jsRound (model.content.getD 1 0 + model.height / 2)),
        CDPCall.raceConsoleTimeout 1000, CDPCall.close],
       Except.ok env.raceMessages) := by
    have hb2 : env.getBoxModel (nodeIds.head?.getD 0) = Except.ok model := by
      simpa [List.headD_eq_head?_getD] using hb
    simp [clickElement, hc, hd, hr, hg, hq, hne, hb2, he1, he2]
  refine ⟨h1, ?_⟩
  rw [h1]
  simp [isClickDispatch, List.countP_cons, List.countP_nil]

/-- Witness for the amended C7 at the concrete click environment. -/
theorem clickElement_flow_witness :
    clickElement clickEnvC "#btn" =
      ([CDPCall.connect, CDPCall.domEnable, CDPCall.runtimeEnable, CDPCall.getDocument,
        CDPCall.querySelectorAll "#btn", CDPCall.getBoxModel 42,
        CDPCall.dispatchClickEval "#btn" 25 40, CDPCall.registerConsoleListener,
        CDPCall.dispatchClickEval "#btn" 25 40, CDPCall.raceConsoleTimeout 1000,
        CDPCall.close],
       Except.ok ["[log] clicked"]) := by
  have h := (clickElement_flow clickEnvC "#btn" 1 [42]
    { content := [10, 20], width := 30, height := 40 }
    rfl rfl rfl rfl rfl (by decide) rfl rfl rfl).1
  rw [h]
  norm_num [jsRound, clickEnvC]

/-- The try block of `captureScreenshot` never closes the session itself. -/
theorem close_not_in_body (env : ScreenshotEnv) (opts : ScreenshotOptions) :
    CDPCall.close ∉ (captureScreenshotBody env opts).1 := by
  simp only [captureScreenshotBody]
  cases hpe : env.pageEnable with
  | error e => simp
  | ok u =>
    by_cases hf : opts.fullPage.getD false = true
    · simp only [hf, if_true]
      cases hgd : env.getDocument with
      | error e => simp [hgd]
      | ok root =>
        simp only [hgd]
        cases hbm : env.getBoxModel root with
        | error e => simp [hbm]
        | ok model =>
          simp only [hbm]
          cases hsm : env.setDeviceMetricsOverride with
          | error e => simp [hsm]
          | ok u2 =>
            simp only [hsm]
            cases hcap : env.captureScreenshot with
            | error e => simp [hcap]
            | ok d => simp [hcap]
    · have hf2 : opts.fullPage.getD false = false := Bool.eq_false_iff.mpr hf
      simp only [hf2, Bool.false_eq_true, if_false]
      cases hcap : env.captureScreenshot with
      | error e => simp [hcap]
      | ok d => simp [hcap]

/-- After a successful connect, `clickElement` ends every exit path with a
session close. -/
theorem clickElement_always_closes (cenv : ClickEnv) (sel : String)
    (hcc : cenv.connect = Except.ok ()) :
    ∃ t, (clickElement cenv sel).1 = t ++ [CDPCall.close] := by
  unfold clickElement
  simp only [hcc]
  cases hd : cenv.domEnable with
  | error e => exact ⟨[CDPCall.connect, CDPCall.domEnable], rfl⟩
  | ok u1 =>
    simp only [hd]
    cases hr : cenv.runtimeEnable with
    | error e => exact ⟨[CDPCall.connect, CDPCall.domEnable, CDPCall.runtimeEnable], rfl⟩
    | ok u2 =>
      simp only [hr]
      cases hg : cenv.getDocument with
      | error e =>
        exact ⟨[CDPCall.connect, CDPCall.domEnable, CDPCall.runtimeEnable,
          CDPCall.getDocument], rfl⟩
      | ok root =>
        simp only [hg]
        cases hq : cenv.querySelectorAll root sel with
        | error e =>
          exact ⟨[CDPCall.connect, CDPCall.domEnable, CDPCall.runtimeEnable,
            CDPCall.getDocument, CDPCall.querySelectorAll sel], rfl⟩
        | ok nodeIds =>
          simp only [hq]
          by_cases hemp : nodeIds = []
          · rw [if_pos hemp]
            exact ⟨[CDPCall.connect, CDPCall.domEnable, CDPCall.runtimeEnable,
              CDPCall.getDocument, CDPCall.querySelectorAll sel], rfl⟩
          · rw [if_neg hemp]
            cases hb : cenv.getBoxModel (nodeIds.headD 0) with
            | error e =>
              exact ⟨[CDPCall.connect, CDPCall.domEnable, CDPCall.runtimeEnable,
                CDPCall.getDocument, CDPCall.querySelectorAll sel,
                CDPCall.getBoxModel (nodeIds.headD 0)], rfl⟩
            | ok model =>
              simp only [hb]
              cases he1 : cenv.evalClick 1 with
              | error e =>
                exact ⟨[CDPCall.connect, CDPCall.domEnable, CDPCall.runtimeEnable,
                  CDPCall.getDocument, CDPCall.querySelectorAll sel,
                  CDPCall.getBoxModel (nodeIds.headD 0),
                  CDPCall.dispatchClickEval sel
                    (jsRound (model.content.getD 0 0 + model.width / 2))
                    (jsRound (model.content.getD 1 0 + model.height / 2))], rfl⟩
              | ok u3 =>
                simp only [he1]
                cases he2 : cenv.evalClick 2 with
                | error e =>
                  exact ⟨[CDPCall.connect, CDPCall.domEnable, CDPCall.runtimeEnable,
                    CDPCall.getDocument, CDPCall.querySelectorAll sel,
                    CDPCall.getBoxModel (nodeIds.headD 0),
                    CDPCall.dispatchClickEval sel
                      (jsRound (model.content.getD 0 0 + model.width / 2))
                      (jsRound (model.content.getD 1 0 + model.height / 2)),
                    CDPCall.registerConsoleListener,
                    CDPCall.dispatchClickEval sel
                      (jsRound (model.content.getD 0 0 + model.width / 2))
                      (jsRound (model.content.getD 1 0 + model.height / 2))], rfl⟩
                | ok u4 =>
                  simp only [he2]
                  exact ⟨[CDPCall.connect, CDPCall.domEnable, CDPCall.runtimeEnable,
                    CDPCall.getDocument, CDPCall.querySelectorAll sel,
                    CDPCall.getBoxModel (nodeIds.headD 0),
                    CDPCall.dispatchClickEval sel
                      (jsRound (model.content.getD 0 0 + model.width / 2))
                      (jsRound (model.content.getD 1 0 + model.height / 2)),
                    CDPCall.registerConsoleListener,
                    CDPCall.dispatchClickEval sel
                      (jsRound (model.content.getD 0 0 + model.width / 2))
                      (jsRound (model.content.getD 1 0 + model.height / 2)),
                    CDPCall.raceConsoleTimeout 1000], rfl⟩

/-- A full-page screenshot environment whose metrics revert fails. -/
def screenshotEnvC : ScreenshotEnv :=
  { connect := Except.ok (), pageEnable := Except.ok (), getDocument := Except.ok 1
  , getBoxModel := fun _ => Except.ok { content := [0, 0], width := 1920, height := 3000 }
  , setDeviceMetricsOverride := Except.ok ()
  , captureScreenshot := Except.ok "AAA"
  , clearDeviceMetricsOverride := Except.error "connection lost" }

/-- Counterexample for C9: when the metrics revert in the finally block itself
fails, the session close is skipped, so not every exit path closes the
session. -/
theorem captureScreenshot_close_skipped_cex :
    CDPCall.close ∉ (captureScreenshotOp screenshotEnvC { fullPage := some true }).1 ∧
    (captureScreenshotOp screenshotEnvC { fullPage := some true }).2 =
      Except.error "connection lost" := by
  constructor
  · decide
  · rfl

/-- C9 amended: after a successful connect, `captureScreenshot` closes the
session on every exit path of its body, and for a full-page capture the
device-metrics revert runs before the close on every such path, including when
the capture itself failed; the one exception is a failure of the revert call
itself, which replaces the result and skips the close.  `clickElement` closes
the session on every exit path. -/
theorem captureScreenshot_session_cleanup (env : ScreenshotEnv) (opts : ScreenshotOptions)
    (hc : env.connect = Except.ok ()) :
    (opts.fullPage.getD false = false →
      ∃ t, (captureScreenshotOp env opts).1 = t ++ [CDPCall.close]) ∧
    (opts.fullPage.getD false = true → env.clearDeviceMetricsOverride = Except.ok () →
      ∃ t, (captureScreenshotOp env opts).1 =
        t ++ [CDPCall.clearDeviceMetricsOverride, CDPCall.close]) ∧
    (opts.fullPage.getD false = true →
      ∀ e, env.clearDeviceMetricsOverride = Except.error e →
        CDPCall.close ∉ (captureScreenshotOp env opts).1 ∧
        (captureScreenshotOp env opts).2 = Except.error e) ∧
    (∀ (cenv : ClickEnv) (sel : String), cenv.connect = Except.ok () →
      ∃ t, (clickElement cenv sel).1 = t ++ [CDPCall.close]) := by
  refine ⟨?_, ?_, ?_, clickElement_always_closes⟩
  · intro hf
    refine ⟨CDPCall.connect :: (captureScreenshotBody env opts).1, ?_⟩
    simp only [captureScreenshotOp, hc, hf, Bool.false_eq_true, if_false]
  · intro hf hclear
    refine ⟨CDPCall.connect :: (captureScreenshotBody env opts).1, ?_⟩
    simp only [captureScreenshotOp, hc, hf, if_true, hclear]
  · intro hf e hclear
    constructor
    · simp only [captureScreenshotOp, hc, hf, if_true, hclear]
      intro hmem
      rcases List.mem_cons.mp hmem with h1 | h1
      · cases h1
      · rcases List.mem_append.mp h1 with h2 | h2
        · exact close_not_in_body env opts h2
        · cases List.mem_singleton.mp h2
    · simp only [captureScreenshotOp, hc, hf, if_true, hclear]

/-- Witness for the amended C9: a full-page capture whose revert succeeds ends
with the revert followed by the close. -/
theorem captureScreenshot_session_cleanup_witness :
    ∃ t, (captureScreenshotOp
      { connect := Except.ok (), pageEnable := Except.ok (), getDocument := Except.ok 1
      , getBoxModel := fun _ => Except.ok { content := [0, 0], width := 1920, height := 3000 }
      , setDeviceMetricsOverride := Except.ok (), captureScreenshot := Except.ok "AAA"
      , clearDeviceMetricsOverride := Except.ok () } { fullPage := some true }).1 =
      t ++ [CDPCall.clearDeviceMetricsOverride, CDPCall.close] :=
  (captureScreenshot_session_cleanup _ { fullPage := some true } rfl).2.1 rfl rfl
